import Mathlib

/-!
Verification development for the `sci` connection-oriented server
(`src/LibSCI/Source/SCI/Server/SCIServer.cpp`).

The server implementation (`SCIServer::Impl`) is embedded shallowly:

* `Process` models the C++ `Process` object (thread handle plus polling
  interval); its C++ pointer identity is modelled by the `id` field.
* `ServerState` models the fields of `SCIServer::Impl`: the listening
  socket `mSocket` (`none` models `INVALID_SOCKET`) and the worker
  registry `mProcessList`.
* External effects (logging, `send`, `recv` attempts, thread sleeps,
  spawning, socket teardown) are recorded as `Event` traces.
* Transport outcomes (`socket`, `bind`, `listen`, `accept`, per-iteration
  `recv` results) and thread joinability are inputs, since they are
  decided by the environment; loops are given explicit fuel.

The packet codec lives in `SCI/System/SCIPacket.h`, which is not part of
the sources here; its frame layout, packet-kind constants, and `Decode`
are modelled from the spec where needed and marked as such.
-/

/-- Models the C++ `Process` object of `SCIServer.cpp` (lines 24-40): a
worker handle holding a thread and a polling interval.  The C++ pointer
identity used by the registry-erase loop is modelled by `id`. -/
structure Process where
  id : Nat
  intervalTime : Int
deriving DecidableEq, Repr

/-- Fields of `SCIServer::Impl`: the listening socket `mSocket`
(`none` models `INVALID_SOCKET`) and the registry `mProcessList`. -/
structure ServerState where
  socket : Option Int
  processList : List Process
deriving DecidableEq, Repr

/-- Observable effects performed by the server code, in program order. -/
inductive Event where
  | logging : String → Event
  | logBody : List Nat → Event
  | sendPacket : Int → Nat → Event
  | recvAttempt : Int → Event
  | sleep : Int → Event
  | spawn : Nat → Event
  | closeSocket : Int → Event
  | releaseThread : Nat → Event
  | releaseProcess : Nat → Event
  | acceptCall : Int → Int → Event
deriving DecidableEq, Repr

/-- Declared client bound, `MAX_CLIENT_NUM` (`SCIServer.cpp` line 19).
No operation in the file reads it. -/
def MAX_CLIENT_NUM : Nat := 8

/-- Worker polling interval, `INTERVAL_OF_TIME_MILLISECONDS`
(`SCIServer.cpp` line 21). -/
def INTERVAL_OF_TIME_MILLISECONDS : Int := 1000

/-- Models `INVALID_SOCKET` for socket values that appear in traces
(the `Option` in `ServerState.socket` models it for the stored field). -/
def INVALID_SOCKET : Int := -1

/-- Modelled from the spec: packet kind `sys::SCIPacket::DISCONNECT`
(`SCIPacket.h` is not among the sources; spec section 6 fixes
DISCONNECT = 0). -/
def DISCONNECT : Nat := 0

/-- Modelled from the spec: packet kind `sys::SCIPacket::MESSAGE`
(spec section 6 fixes MESSAGE = 1). -/
def MESSAGE : Nat := 1

/-- Modelled from the spec: the fixed layout of `sys::SCIPacket::RawData`
(a header region containing the kind byte at the fixed offset
`RAWDATA_HEADER_INDEX`, followed by a fixed-capacity body region).
`SCIPacket.h` is not among the sources, so the sizes stay symbolic. -/
structure FrameLayout where
  headerBytes : Nat
  bodyBytes : Nat
  headerIndex : Nat
  headerIndex_lt : headerIndex < headerBytes
deriving Repr

/-- Total size of a frame, `sizeof(sys::SCIPacket::RawData)`. -/
def FrameLayout.frameSize (L : FrameLayout) : Nat :=
  L.headerBytes + L.bodyBytes

/-- Body region of a received buffer: the bytes `rawData.mBody` receives
from the `memcpy` in `Proc` (`SCIServer.cpp` line 191). -/
def FrameLayout.body (L : FrameLayout) (buffer : List Nat) : List Nat :=
  (buffer.drop L.headerBytes).take L.bodyBytes

/-- Kind byte of a received buffer:
`rawData.mHeader[sys::SCIPacket::RAWDATA_HEADER_INDEX]` after the
`memcpy` in `Proc` (`SCIServer.cpp` line 192). -/
def FrameLayout.kind (L : FrameLayout) (buffer : List Nat) : Nat :=
  buffer.getD L.headerIndex 0

/-- Modelled from the spec: `Decode` of the packet codec
(`sys::SCIPacket`, `SCIPacket.h`, not among the sources).  Spec section
4.1: fails with `MalformedFrame` (`none`) if the buffer is shorter than
the fixed frame size; otherwise reads the kind byte at its fixed offset
and copies the body region verbatim. -/
def Decode (L : FrameLayout) (buffer : List Nat) : Option (Nat × List Nat) :=
  if buffer.length < L.frameSize then none
  else some (L.kind buffer, L.body buffer)

/-- Embeds `SCIServer::Impl::createNewProcess` (`SCIServer.cpp` lines
72-90): allocates a `Process` with interval `INTERVAL_OF_TIME_MILLISECONDS`,
starts a thread running `Proc`; if the thread is not joinable both are
deleted and `false` is returned; otherwise the thread is detached, the
process is appended to `mProcessList`, and `true` is returned.
`joinable` is an environment input, `nextId` the fresh identity of the
allocation.  Returns (result, new registry, events). -/
def createNewProcess (joinable : Bool) (nextId : Nat) (l : List Process) :
    Bool × List Process × List Event :=
  if joinable then
    (true, l ++ [⟨nextId, INTERVAL_OF_TIME_MILLISECONDS⟩], [Event.spawn nextId])
  else
    (false, l, [])

/-- Embeds one iteration of the receive loop of `SCIServer::Impl::Proc`
(`SCIServer.cpp` lines 182-206), for a worker whose connection socket is
`sockclient` and whose polling interval is `interval`.  `recvBuf` is the
environment's answer to the `recv` call: `none` when `recv` returned no
data, `some buffer` for the bytes in the stack buffer otherwise.
Returns the new value of `connected` and the events of the iteration:
the unconditional `send(&sockclient, DISCONNECT)` probe, the receive
attempt, the dispatch on the kind byte, and the trailing sleep. -/
def procIteration (L : FrameLayout) (sockclient : Int) (interval : Int)
    (recvBuf : Option (List Nat)) : Bool × List Event :=
  let probe := [Event.sendPacket sockclient DISCONNECT,
                Event.recvAttempt sockclient]
  match recvBuf with
  | none => (true, probe ++ [Event.sleep interval])
  | some buffer =>
      let received := [Event.logging "data received."]
      let dispatch : Bool × List Event :=
        if L.kind buffer = DISCONNECT then
          (false, [Event.logging "goodbye."])
        else if L.kind buffer = MESSAGE then
          (true, [Event.logBody (L.body buffer),
                  Event.sendPacket sockclient DISCONNECT])
        else
          (true, [])
      (dispatch.1, probe ++ received ++ dispatch.2 ++ [Event.sleep interval])

/-- Embeds the `while (connected)` loop of `Proc` with explicit fuel:
`recvs i` is the `recv` outcome of iteration `i`.  Returns the
accumulated events and whether the loop exited (`connected` became
`false`) within the given fuel. -/
def procLoop (L : FrameLayout) (sockclient : Int) (interval : Int)
    (recvs : Nat → Option (List Nat)) : Nat → Nat → List Event × Bool
  | 0, _ => ([], false)
  | fuel + 1, i =>
      let step := procIteration L sockclient interval (recvs i)
      if step.1 then
        let rest := procLoop L sockclient interval recvs fuel (i + 1)
        (step.2 ++ rest.1, rest.2)
      else
        (step.2, true)

/-- Removes the first registry entry equal to the worker's own handle:
the find-and-erase loop of `Proc` (`SCIServer.cpp` lines 210-217), where
C++ pointer equality is modelled by `Process.id`. -/
def removeFirst (pid : Nat) : List Process → List Process
  | [] => []
  | p :: rest => if p.id = pid then rest else p :: removeFirst pid rest

/-- Events of `Proc` before the receive loop (`SCIServer.cpp` lines
166-175): wait log, the `accept` call on the listening socket, the
acceptance logs. -/
def procPrefix (listenSock : Int) (acceptRes : Int) : List Event :=
  [Event.logging "wait connection. please start client.",
   Event.acceptCall listenSock acceptRes,
   Event.logging "connection accepted.",
   Event.logging "hello."]

/-- Embeds `SCIServer::Impl::Proc` (`SCIServer.cpp` lines 164-220).
`acceptRes` is the socket returned by `accept` (the code never tests it
for failure), `joinable`/`nextId` parameterise the nested
`createNewProcess`, `recvs` the per-iteration `recv` outcomes, `self`
the worker's own `Process` argument, and `l` the registry when
`createNewProcess` runs.  Returns (events, registry, terminated):
when the loop exits within fuel the connection socket is closed and the
first registry entry matching `self` is erased; otherwise the registry
still holds the spawned entry and the trace is the partial one. -/
def Proc (L : FrameLayout) (listenSock : Int) (acceptRes : Int)
    (joinable : Bool) (nextId : Nat) (recvs : Nat → Option (List Nat))
    (fuel : Nat) (self : Process) (l : List Process) :
    List Event × List Process × Bool :=
  let spawned := createNewProcess joinable nextId l
  let loop := procLoop L acceptRes self.intervalTime recvs fuel 0
  if loop.2 then
    (procPrefix listenSock acceptRes ++ spawned.2.2 ++ loop.1 ++
       [Event.closeSocket acceptRes, Event.logging "disconnected client."],
     removeFirst self.id spawned.2.1, true)
  else
    (procPrefix listenSock acceptRes ++ spawned.2.2 ++ loop.1,
     spawned.2.1, false)

/-- Transport outcomes for `Connect`: the result of `socket()` (`none`
models `INVALID_SOCKET`), and the return values of `bind` and `listen`
(nonzero models failure, as in `if (int error = bind(...))`). -/
structure TransportEnv where
  socketRes : Option Int
  bindRes : Int
  listenRes : Int

/-- Embeds the registry-polling wait of `Connect` (`SCIServer.cpp` lines
133-136): `snaps i` is the contents of `mProcessList` (concurrently
mutated by the workers) at the i-th check.  Returns the index of the
first empty observation, or `none` if no check within the fuel sees an
empty registry (the loop has not returned yet). -/
def pollUntilEmpty (snaps : Nat → List Process) : Nat → Nat → Option Nat
  | 0, _ => none
  | fuel + 1, i => if snaps i = [] then some i else pollUntilEmpty snaps fuel (i + 1)

/-- Embeds `SCIServer::Impl::Connect` (`SCIServer.cpp` lines 92-139),
the body of `SCIServer::Start`.  On `socket` failure it returns `false`
at once; on `bind` or `listen` failure it closes the socket, resets
`mSocket` to `INVALID_SOCKET`, and returns `false`; otherwise it spawns
the first acceptor via `createNewProcess` (result ignored) and sleeps in
a loop until it observes `mProcessList` empty, then returns `true`.
`none` models a call that has not returned within the fuel. -/
def Connect (env : TransportEnv) (joinable : Bool) (nextId : Nat)
    (snaps : Nat → List Process) (fuel : Nat) (st : ServerState) :
    Option (Bool × ServerState × List Event) :=
  match env.socketRes with
  | none => some (false, { st with socket := none },
      [Event.logging "socket failure."])
  | some s =>
      if env.bindRes ≠ 0 then
        some (false, { st with socket := none },
          [Event.logging "socket bind error.", Event.closeSocket s])
      else if env.listenRes ≠ 0 then
        some (false, { st with socket := none },
          [Event.logging "socket listen error.", Event.closeSocket s])
      else
        let spawned := createNewProcess joinable nextId st.processList
        match pollUntilEmpty snaps fuel 0 with
        | none => none
        | some k =>
            some (true, { socket := some s, processList := snaps k },
              spawned.2.2 ++ List.replicate k (Event.sleep 1000))

/-- Embeds `SCIServer::Impl::Disconnect` (`SCIServer.cpp` lines
141-162), the body of `SCIServer::End`.  Returns `false` if `mSocket`
is `INVALID_SOCKET`; otherwise sends a DISCONNECT frame on the listening
socket itself, closes it, then deletes every registered thread and
process and clears the registry, and returns `true`.  Note the code
leaves `mSocket` unchanged after `closesocket`. -/
def Disconnect (st : ServerState) : Bool × ServerState × List Event :=
  match st.socket with
  | none => (false, st, [])
  | some s =>
      (true, { st with processList := [] },
        Event.sendPacket s DISCONNECT :: Event.closeSocket s ::
          st.processList.flatMap (fun p =>
            [Event.releaseThread p.id, Event.releaseProcess p.id]))

/-- Embeds `SCIServer::Start` (`SCIServer.cpp` lines 235-238), which
delegates to `Impl::Connect`. -/
def SCIServer.Start (env : TransportEnv) (joinable : Bool) (nextId : Nat)
    (snaps : Nat → List Process) (fuel : Nat) (st : ServerState) :
    Option (Bool × ServerState × List Event) :=
  Connect env joinable nextId snaps fuel st

/-- Embeds `SCIServer::End` (`SCIServer.cpp` lines 240-243), which
delegates to `Impl::Disconnect`. -/
def SCIServer.End (st : ServerState) : Bool × ServerState × List Event :=
  Disconnect st

/-- Concrete frame layout (2 header bytes, 4 body bytes, kind byte at
offset 0) used to evaluate the theorems on concrete inputs. -/
def testLayout : FrameLayout := ⟨2, 4, 0, by decide⟩

/-- C10: a successful spawn appends exactly one handle to the registry
regardless of its current size; `createNewProcess` never consults
`MAX_CLIENT_NUM`, so the registry can exceed that declared bound. -/
theorem createNewProcess_ignores_max_client_bound (l : List Process) (nextId : Nat)
    (h : MAX_CLIENT_NUM ≤ l.length) :
    (createNewProcess true nextId l).1 = true ∧
    (createNewProcess true nextId l).2.1
      = l ++ [⟨nextId, INTERVAL_OF_TIME_MILLISECONDS⟩] ∧
    MAX_CLIENT_NUM < (createNewProcess true nextId l).2.1.length := by
  refine ⟨rfl, rfl, ?_⟩
  have hl : (createNewProcess true nextId l).2.1
      = l ++ [⟨nextId, INTERVAL_OF_TIME_MILLISECONDS⟩] := rfl
  rw [hl]
  simp only [List.length_append, List.length_cons, List.length_nil]
  omega

/-- Witness for C10 at a registry already holding `MAX_CLIENT_NUM`
handles. -/
theorem createNewProcess_ignores_max_client_bound_witness :
    MAX_CLIENT_NUM ≤ (List.replicate 8 ({ id := 0, intervalTime := 1000 } : Process)).length ∧
    MAX_CLIENT_NUM <
      (createNewProcess true 8 (List.replicate 8 { id := 0, intervalTime := 1000 })).2.1.length :=
  ⟨by decide,
   (createNewProcess_ignores_max_client_bound
      (List.replicate 8 { id := 0, intervalTime := 1000 }) 8 (by decide)).2.2⟩

/-- C4: decoding fails with `MalformedFrame` exactly when the buffer is
shorter than the fixed frame size; otherwise it is total, reading the
kind byte at the fixed header offset and copying the body region
verbatim. -/
theorem decode_malformed_iff_short (L : FrameLayout) (buffer : List Nat) :
    (Decode L buffer = none ↔ buffer.length < L.frameSize) ∧
    (L.frameSize ≤ buffer.length →
      Decode L buffer = some (L.kind buffer, L.body buffer)) := by
  unfold Decode
  by_cases h : buffer.length < L.frameSize <;> simp [h]

/-- Witness for C4: a short buffer is rejected, a full-size buffer
decodes to its kind byte and verbatim body. -/
theorem decode_malformed_iff_short_witness :
    Decode testLayout [7] = none ∧
    testLayout.frameSize ≤ ([1, 0, 2, 3, 4, 5] : List Nat).length ∧
    Decode testLayout [1, 0, 2, 3, 4, 5]
      = some (testLayout.kind [1, 0, 2, 3, 4, 5], testLayout.body [1, 0, 2, 3, 4, 5]) :=
  ⟨(decode_malformed_iff_short testLayout [7]).1.mpr (by decide),
   by decide,
   (decode_malformed_iff_short testLayout [1, 0, 2, 3, 4, 5]).2 (by decide)⟩

/-- C2: dispatch of a received frame follows the kind byte.  DISCONNECT
makes the worker leave `ACTIVE` (`connected := false`); MESSAGE logs the
body and sends a DISCONNECT frame back while the worker stays `ACTIVE`;
any other kind is a no-op (only the unconditional probe, the receive
log, and the sleep occur) and the loop continues. -/
theorem worker_dispatch_on_kind (L : FrameLayout) (s interval : Int)
    (buffer : List Nat) :
    (L.kind buffer = DISCONNECT →
      (procIteration L s interval (some buffer)).1 = false) ∧
    (L.kind buffer = MESSAGE →
      (procIteration L s interval (some buffer)).1 = true ∧
      (procIteration L s interval (some buffer)).2 =
        [Event.sendPacket s DISCONNECT, Event.recvAttempt s,
         Event.logging "data received.", Event.logBody (L.body buffer),
         Event.sendPacket s DISCONNECT, Event.sleep interval]) ∧
    (L.kind buffer ≠ DISCONNECT → L.kind buffer ≠ MESSAGE →
      (procIteration L s interval (some buffer)).1 = true ∧
      (procIteration L s interval (some buffer)).2 =
        [Event.sendPacket s DISCONNECT, Event.recvAttempt s,
         Event.logging "data received.", Event.sleep interval]) := by
  refine ⟨fun h => ?_, fun h => ?_, fun h1 h2 => ?_⟩
  · simp [procIteration, h]
  · have h0 : L.kind buffer ≠ DISCONNECT := by
      rw [h]; decide
    constructor <;> simp [procIteration, h, h0, MESSAGE, DISCONNECT]
  · constructor <;> simp [procIteration, h1, h2]

/-- Witness for C2 on the three kind classes. -/
theorem worker_dispatch_on_kind_witness :
    testLayout.kind [0, 0, 0, 0, 0, 0] = DISCONNECT ∧
    (procIteration testLayout 7 1000 (some [0, 0, 0, 0, 0, 0])).1 = false ∧
    testLayout.kind [1, 0, 9, 9, 9, 9] = MESSAGE ∧
    (procIteration testLayout 7 1000 (some [1, 0, 9, 9, 9, 9])).1 = true ∧
    testLayout.kind [5, 0, 0, 0, 0, 0] ≠ DISCONNECT ∧
    (procIteration testLayout 7 1000 (some [5, 0, 0, 0, 0, 0])).1 = true :=
  ⟨by decide,
   (worker_dispatch_on_kind testLayout 7 1000 [0, 0, 0, 0, 0, 0]).1 (by decide),
   by decide,
   ((worker_dispatch_on_kind testLayout 7 1000 [1, 0, 9, 9, 9, 9]).2.1 (by decide)).1,
   by decide,
   ((worker_dispatch_on_kind testLayout 7 1000 [5, 0, 0, 0, 0, 0]).2.2
      (by decide) (by decide)).1⟩

/-- C8: every iteration of an `ACTIVE` worker first sends the
unconditional DISCONNECT probe, then attempts a receive, and ends with a
sleep of the worker's interval whether or not data arrived; a handle
built by `createNewProcess` carries the fixed default interval
`INTERVAL_OF_TIME_MILLISECONDS` of one second. -/
theorem worker_probe_recv_sleep (L : FrameLayout) (s : Int) (self : Process)
    (recvBuf : Option (List Nat)) (nextId : Nat) (l : List Process) :
    (procIteration L s self.intervalTime recvBuf).2.head?
      = some (Event.sendPacket s DISCONNECT) ∧
    (procIteration L s self.intervalTime recvBuf).2[1]?
      = some (Event.recvAttempt s) ∧
    (procIteration L s self.intervalTime recvBuf).2.getLast?
      = some (Event.sleep self.intervalTime) ∧
    (createNewProcess true nextId l).2.1.getLast?
      = some ⟨nextId, INTERVAL_OF_TIME_MILLISECONDS⟩ ∧
    INTERVAL_OF_TIME_MILLISECONDS = 1000 := by
  refine ⟨?_, ?_, ?_, ?_, rfl⟩
  · cases recvBuf with
    | none => simp [procIteration]
    | some buffer =>
        by_cases h0 : L.kind buffer = DISCONNECT <;>
          by_cases h1 : L.kind buffer = MESSAGE <;>
            simp only [DISCONNECT, MESSAGE] at h0 h1 <;>
              simp [procIteration, DISCONNECT, MESSAGE, h0, h1]
  · cases recvBuf with
    | none => simp [procIteration]
    | some buffer =>
        by_cases h0 : L.kind buffer = DISCONNECT <;>
          by_cases h1 : L.kind buffer = MESSAGE <;>
            simp only [DISCONNECT, MESSAGE] at h0 h1 <;>
              simp [procIteration, DISCONNECT, MESSAGE, h0, h1]
  · cases recvBuf with
    | none => simp [procIteration]
    | some buffer =>
        by_cases h0 : L.kind buffer = DISCONNECT <;>
          by_cases h1 : L.kind buffer = MESSAGE <;>
            simp only [DISCONNECT, MESSAGE] at h0 h1 <;>
              simp [procIteration, DISCONNECT, MESSAGE, h0, h1]
  · simp [createNewProcess]

/-- C3: `End` fails exactly when no listening endpoint is open; otherwise
it returns `true` after sending a DISCONNECT frame on the listening
endpoint itself, closing that endpoint, and releasing every handle in
the registry (thread and entry, one release pair per entry, in order);
the trace contains nothing else, in particular no stop signal to the
workers, and the registry is cleared unconditionally. -/
theorem end_teardown (st : ServerState) :
    ((Disconnect st).1 = false ↔ st.socket = none) ∧
    (st.socket = none → Disconnect st = (false, st, [])) ∧
    (∀ s, st.socket = some s →
      (Disconnect st).1 = true ∧
      (Disconnect st).2.1 = { st with processList := [] } ∧
      (Disconnect st).2.2
        = Event.sendPacket s DISCONNECT :: Event.closeSocket s ::
            st.processList.flatMap (fun p =>
              [Event.releaseThread p.id, Event.releaseProcess p.id])) := by
  refine ⟨?_, fun h => ?_, fun s h => ?_⟩
  · cases hs : st.socket <;> simp [Disconnect, hs]
  · simp [Disconnect, h]
  · simp [Disconnect, h]

/-- Witness for C3 on a server with an open endpoint and two registered
workers. -/
theorem end_teardown_witness :
    (⟨some 3, [⟨1, 1000⟩, ⟨2, 1000⟩]⟩ : ServerState).socket = some 3 ∧
    (Disconnect ⟨some 3, [⟨1, 1000⟩, ⟨2, 1000⟩]⟩).1 = true ∧
    (Disconnect ⟨some 3, [⟨1, 1000⟩, ⟨2, 1000⟩]⟩).2.1
      = ⟨some 3, []⟩ ∧
    (Disconnect ⟨none, [⟨1, 1000⟩]⟩).1 = false :=
  ⟨rfl,
   ((end_teardown ⟨some 3, [⟨1, 1000⟩, ⟨2, 1000⟩]⟩).2.2 3 rfl).1,
   ((end_teardown ⟨some 3, [⟨1, 1000⟩, ⟨2, 1000⟩]⟩).2.2 3 rfl).2.1,
   (end_teardown ⟨none, [⟨1, 1000⟩]⟩).1.mpr rfl⟩

/-- Removing the first match: `removeFirst` deletes exactly the first
entry whose identity matches and keeps everything else in order. -/
theorem removeFirst_first_match (pid : Nat) (l1 l2 : List Process) (p : Process)
    (hp : p.id = pid) (h1 : ∀ q ∈ l1, q.id ≠ pid) :
    removeFirst pid (l1 ++ p :: l2) = l1 ++ l2 := by
  induction l1 with
  | nil => simp [removeFirst, hp]
  | cons q rest ih =>
      have hq : q.id ≠ pid := h1 q (by simp)
      simp only [List.cons_append, removeFirst, if_neg hq, List.cons.injEq,
        true_and]
      exact ih (fun r hr => h1 r (by simp [hr]))

/-- C9: when the receive loop exits (the worker reached `CLOSED`), the
worker terminates, its own connection endpoint is closed, and the
registry it leaves behind is the spawn-time registry with exactly the
first entry matching its own identity removed; the general
first-match/others-unchanged behaviour of the erase loop is stated by
the last conjunct. -/
theorem worker_closed_cleanup (L : FrameLayout) (ls acceptRes : Int)
    (joinable : Bool) (nextId : Nat) (recvs : Nat → Option (List Nat))
    (fuel : Nat) (self : Process) (l : List Process)
    (hdone : (procLoop L acceptRes self.intervalTime recvs fuel 0).2 = true) :
    (Proc L ls acceptRes joinable nextId recvs fuel self l).2.2 = true ∧
    Event.closeSocket acceptRes
      ∈ (Proc L ls acceptRes joinable nextId recvs fuel self l).1 ∧
    (Proc L ls acceptRes joinable nextId recvs fuel self l).2.1
      = removeFirst self.id (createNewProcess joinable nextId l).2.1 ∧
    (∀ l1 l2 p, p.id = self.id → (∀ q ∈ l1, q.id ≠ self.id) →
      removeFirst self.id (l1 ++ p :: l2) = l1 ++ l2) := by
  refine ⟨?_, ?_, ?_, fun l1 l2 p hp h1 => removeFirst_first_match _ l1 l2 p hp h1⟩
  all_goals simp [Proc, hdone]

/-- Witness for C9: a worker that receives a DISCONNECT frame in its
first iteration terminates and erases itself (identity 1) while leaving
the acceptor it spawned (identity 2) registered. -/
theorem worker_closed_cleanup_witness :
    (procLoop testLayout 9 (⟨1, 1000⟩ : Process).intervalTime
        (fun _ => some [0, 0, 0, 0, 0, 0]) 1 0).2 = true ∧
    (Proc testLayout 3 9 true 2 (fun _ => some [0, 0, 0, 0, 0, 0]) 1
        ⟨1, 1000⟩ [⟨1, 1000⟩]).2.2 = true ∧
    Event.closeSocket 9
      ∈ (Proc testLayout 3 9 true 2 (fun _ => some [0, 0, 0, 0, 0, 0]) 1
          ⟨1, 1000⟩ [⟨1, 1000⟩]).1 ∧
    (Proc testLayout 3 9 true 2 (fun _ => some [0, 0, 0, 0, 0, 0]) 1
        ⟨1, 1000⟩ [⟨1, 1000⟩]).2.1 = [⟨2, 1000⟩] :=
  ⟨by decide,
   (worker_closed_cleanup testLayout 3 9 true 2 (fun _ => some [0, 0, 0, 0, 0, 0]) 1
      ⟨1, 1000⟩ [⟨1, 1000⟩] (by decide)).1,
   (worker_closed_cleanup testLayout 3 9 true 2 (fun _ => some [0, 0, 0, 0, 0, 0]) 1
      ⟨1, 1000⟩ [⟨1, 1000⟩] (by decide)).2.1,
   by decide⟩

/-- Every iteration's event list starts with the probe send followed by
the receive attempt, whatever the receive outcome. -/
theorem procIteration_starts_with_probe (L : FrameLayout) (s interval : Int)
    (recvBuf : Option (List Nat)) :
    ∃ tail, (procIteration L s interval recvBuf).2
      = Event.sendPacket s DISCONNECT :: Event.recvAttempt s :: tail := by
  cases recvBuf <;> exact ⟨_, rfl⟩

/-- With at least one iteration of fuel, the receive-loop trace starts
with the probe send to the connection socket. -/
theorem procLoop_starts_with_probe (L : FrameLayout) (s interval : Int)
    (recvs : Nat → Option (List Nat)) (fuel i : Nat) (h : 0 < fuel) :
    ∃ tail, (procLoop L s interval recvs fuel i).1
      = Event.sendPacket s DISCONNECT :: tail := by
  cases fuel with
  | zero => exact absurd h (by omega)
  | succ n =>
      obtain ⟨t, ht⟩ := procIteration_starts_with_probe L s interval (recvs i)
      unfold procLoop
      by_cases hc : (procIteration L s interval (recvs i)).1 <;>
        simp [hc, ht]

/-- Trace structure of `Proc` with a successfully spawned acceptor: the
first five events are the pre-loop prefix followed by the spawn of the
next acceptor, and the sixth event is the first probe of the receive
loop serving the accepted connection, in the same trace. -/
theorem proc_spawn_then_probe (L : FrameLayout) (ls acceptRes : Int)
    (nextId : Nat) (recvs : Nat → Option (List Nat)) (fuel : Nat)
    (self : Process) (l : List Process) (hfuel : 0 < fuel) :
    (Proc L ls acceptRes true nextId recvs fuel self l).1.take 5
      = procPrefix ls acceptRes ++ [Event.spawn nextId] ∧
    ((Proc L ls acceptRes true nextId recvs fuel self l).1.drop 5).head?
      = some (Event.sendPacket acceptRes DISCONNECT) := by
  obtain ⟨tail, ht⟩ :=
    procLoop_starts_with_probe L acceptRes self.intervalTime recvs fuel 0 hfuel
  have hspawn : (createNewProcess true nextId l).2.2 = [Event.spawn nextId] := rfl
  unfold Proc
  by_cases hdone : (procLoop L acceptRes self.intervalTime recvs fuel 0).2 <;>
    simp [hdone, hspawn, ht, procPrefix]

/-- C5: after a successful accept, the same execution unit first
registers and starts exactly one new acceptor (the registry grows by
exactly the one new handle, the spawn event immediately follows the
accept prefix) and then, in the same trace with no dispatch step in
between, begins serving the just-accepted connection: the very next
event is the worker loop's probe send on the accepted socket. -/
theorem accept_spawns_acceptor_then_serves (L : FrameLayout) (ls acceptRes : Int)
    (nextId : Nat) (recvs : Nat → Option (List Nat)) (fuel : Nat)
    (self : Process) (l : List Process)
    (haccept : acceptRes ≠ INVALID_SOCKET) (hfuel : 0 < fuel) :
    (createNewProcess true nextId l).1 = true ∧
    (createNewProcess true nextId l).2.1
      = l ++ [⟨nextId, INTERVAL_OF_TIME_MILLISECONDS⟩] ∧
    (Proc L ls acceptRes true nextId recvs fuel self l).1.take 5
      = procPrefix ls acceptRes ++ [Event.spawn nextId] ∧
    ((Proc L ls acceptRes true nextId recvs fuel self l).1.drop 5).head?
      = some (Event.sendPacket acceptRes DISCONNECT) :=
  ⟨rfl, rfl,
   (proc_spawn_then_probe L ls acceptRes nextId recvs fuel self l hfuel).1,
   (proc_spawn_then_probe L ls acceptRes nextId recvs fuel self l hfuel).2⟩

/-- Witness for C5 on a concrete accepted connection (socket 9). -/
theorem accept_spawns_acceptor_then_serves_witness :
    (9 : Int) ≠ INVALID_SOCKET ∧ 0 < 1 ∧
    (Proc testLayout 3 9 true 2 (fun _ => none) 1 ⟨1, 1000⟩ [⟨1, 1000⟩]).1.take 5
      = procPrefix 3 9 ++ [Event.spawn 2] ∧
    ((Proc testLayout 3 9 true 2 (fun _ => none) 1 ⟨1, 1000⟩ [⟨1, 1000⟩]).1.drop 5).head?
      = some (Event.sendPacket 9 DISCONNECT) :=
  ⟨by decide, by decide,
   (accept_spawns_acceptor_then_serves testLayout 3 9 2 (fun _ => none) 1
      ⟨1, 1000⟩ [⟨1, 1000⟩] (by decide) (by decide)).2.2.1,
   (accept_spawns_acceptor_then_serves testLayout 3 9 2 (fun _ => none) 1
      ⟨1, 1000⟩ [⟨1, 1000⟩] (by decide) (by decide)).2.2.2⟩

/-- C6 counterexample: with the listening endpoint closed concurrently,
`accept` fails (`INVALID_SOCKET`), yet the unit does not exit: starting
from an empty registry it still spawns a further acceptor (the registry
becomes nonempty) and still enters the worker receive loop (the loop's
probe send on the invalid socket appears in the trace).  This refutes
the claimed cancellation path at a concrete input. -/
theorem accept_failure_claim_counterexample :
    ¬ ((Proc testLayout 3 INVALID_SOCKET true 1 (fun _ => none) 1
          ⟨0, 1000⟩ []).2.1 = [] ∧
       Event.sendPacket INVALID_SOCKET DISCONNECT
         ∉ (Proc testLayout 3 INVALID_SOCKET true 1 (fun _ => none) 1
             ⟨0, 1000⟩ []).1) := by
  decide

/-- C6 amended: `Proc` never tests the result of `accept`; when `accept`
fails the unit proceeds exactly as on success: it registers and starts a
further acceptor and enters the worker receive loop on the invalid
connection handle (there is no cancellation path). -/
theorem accept_failure_still_spawns_and_loops (L : FrameLayout) (ls : Int)
    (nextId : Nat) (recvs : Nat → Option (List Nat)) (fuel : Nat)
    (self : Process) (l : List Process) (hfuel : 0 < fuel) :
    (createNewProcess true nextId l).2.1
      = l ++ [⟨nextId, INTERVAL_OF_TIME_MILLISECONDS⟩] ∧
    (Proc L ls INVALID_SOCKET true nextId recvs fuel self l).1.take 5
      = procPrefix ls INVALID_SOCKET ++ [Event.spawn nextId] ∧
    ((Proc L ls INVALID_SOCKET true nextId recvs fuel self l).1.drop 5).head?
      = some (Event.sendPacket INVALID_SOCKET DISCONNECT) :=
  ⟨rfl,
   (proc_spawn_then_probe L ls INVALID_SOCKET nextId recvs fuel self l hfuel).1,
   (proc_spawn_then_probe L ls INVALID_SOCKET nextId recvs fuel self l hfuel).2⟩

/-- Witness for the amended C6 at a concrete failed accept. -/
theorem accept_failure_still_spawns_and_loops_witness :
    (0 : Nat) < 1 ∧
    (Proc testLayout 3 INVALID_SOCKET true 1 (fun _ => none) 1 ⟨0, 1000⟩ []).1.take 5
      = procPrefix 3 INVALID_SOCKET ++ [Event.spawn 1] ∧
    ((Proc testLayout 3 INVALID_SOCKET true 1 (fun _ => none) 1 ⟨0, 1000⟩ []).1.drop 5).head?
      = some (Event.sendPacket INVALID_SOCKET DISCONNECT) :=
  ⟨by decide,
   (accept_failure_still_spawns_and_loops testLayout 3 1 (fun _ => none) 1
      ⟨0, 1000⟩ [] (by decide)).2.1,
   (accept_failure_still_spawns_and_loops testLayout 3 1 (fun _ => none) 1
      ⟨0, 1000⟩ [] (by decide)).2.2⟩

/-- Soundness of the registry-polling wait: a successful poll returns
the index of an empty observation, and every earlier observation from
the start index on was nonempty. -/
theorem pollUntilEmpty_spec (snaps : Nat → List Process) (fuel : Nat) :
    ∀ i k, pollUntilEmpty snaps fuel i = some k →
      i ≤ k ∧ k < i + fuel ∧ snaps k = [] ∧
        ∀ j, i ≤ j → j < k → snaps j ≠ [] := by
  induction fuel with
  | zero => intro i k h; simp [pollUntilEmpty] at h
  | succ n ih =>
      intro i k h
      unfold pollUntilEmpty at h
      by_cases hs : snaps i = []
      · rw [if_pos hs] at h
        cases h
        exact ⟨Nat.le_refl i, by omega, hs, fun j h1 h2 => absurd h1 (by omega)⟩
      · rw [if_neg hs] at h
        obtain ⟨h1, h2, h3, h4⟩ := ih (i + 1) k h
        refine ⟨by omega, by omega, h3, fun j hj1 hj2 => ?_⟩
        by_cases hji : j = i
        · rw [hji]; exact hs
        · exact h4 j (by omega) hj2

/-- Completeness of the registry-polling wait: if some observation
within the fuel window is empty, the poll returns. -/
theorem pollUntilEmpty_complete (snaps : Nat → List Process) (fuel : Nat) :
    ∀ i k, i ≤ k → k < i + fuel → snaps k = [] →
      (pollUntilEmpty snaps fuel i).isSome = true := by
  induction fuel with
  | zero => intro i k h1 h2 _; exact absurd h2 (by omega)
  | succ n ih =>
      intro i k h1 h2 h3
      unfold pollUntilEmpty
      by_cases hs : snaps i = []
      · rw [if_pos hs]; rfl
      · have hik : i ≠ k := fun he => hs (he ▸ h3)
        rw [if_neg hs]
        exact ih (i + 1) k (by omega) (by omega) h3

/-- C1: on a successful startup (socket, bind and listen all succeed and
the first acceptor is spawned), `Start` returns only after observing an
empty registry and not before: whenever the call returns it returns
`true`, the state it observed is the empty registry, some poll index `k`
saw an empty registry while every earlier poll saw a nonempty one, and
the trace shows the spawn followed by exactly `k` fixed-interval sleeps;
conversely, if some poll within the fuel window sees an empty registry
the call does return. -/
theorem start_returns_iff_registry_empty (env : TransportEnv) (s : Int)
    (nextId : Nat) (snaps : Nat → List Process) (fuel : Nat) (st : ServerState)
    (hs : env.socketRes = some s) (hb : env.bindRes = 0) (hl : env.listenRes = 0) :
    (∀ b st2 evs,
      SCIServer.Start env true nextId snaps fuel st = some (b, st2, evs) →
      b = true ∧ st2.processList = [] ∧
      ∃ k, snaps k = [] ∧ (∀ j, j < k → snaps j ≠ []) ∧
        evs = Event.spawn nextId :: List.replicate k (Event.sleep 1000)) ∧
    ((∃ k, k < fuel ∧ snaps k = []) →
      SCIServer.Start env true nextId snaps fuel st ≠ none) := by
  constructor
  · intro b st2 evs h
    unfold SCIServer.Start Connect at h
    rw [hs, hb, hl] at h
    simp only [ne_eq, not_true_eq_false, if_neg] at h
    cases hp : pollUntilEmpty snaps fuel 0 with
    | none => rw [hp] at h; cases h
    | some k =>
        rw [hp] at h
        obtain ⟨h1, h2, h3, h4⟩ := pollUntilEmpty_spec snaps fuel 0 k hp
        cases h
        exact ⟨rfl, h3, k, h3, fun j hj => h4 j (Nat.zero_le j) hj, rfl⟩
  · rintro ⟨k, hk, hsk⟩ hnone
    have hcomp := pollUntilEmpty_complete snaps fuel 0 k (Nat.zero_le k)
      (by omega) hsk
    unfold SCIServer.Start Connect at hnone
    rw [hs, hb, hl] at hnone
    simp only [ne_eq, not_true_eq_false, if_neg] at hnone
    cases hp : pollUntilEmpty snaps fuel 0 with
    | none => rw [hp] at hcomp; cases hcomp
    | some kk => rw [hp] at hnone; cases hnone

/-- Witness for C1: with the registry observed nonempty once and empty
at the second poll, `Start` returns `true` after one sleep. -/
theorem start_returns_iff_registry_empty_witness :
    (⟨some 3, 0, 0⟩ : TransportEnv).socketRes = some 3 ∧
    SCIServer.Start ⟨some 3, 0, 0⟩ true 0
        (fun i => if i = 0 then [⟨0, 1000⟩] else []) 2 ⟨none, []⟩ ≠ none :=
  ⟨rfl,
   (start_returns_iff_registry_empty ⟨some 3, 0, 0⟩ 3 0
      (fun i => if i = 0 then [⟨0, 1000⟩] else []) 2 ⟨none, []⟩
      rfl rfl rfl).2 ⟨1, by decide, by decide⟩⟩

/-- C7: whenever transport setup fails (socket creation, bind, or
listen), `Start` returns `false` at once — for every fuel, so without
any retry or polling — with the listening endpoint released
(`mSocket = INVALID_SOCKET`), the registry untouched, and no spawn
event in the trace. -/
theorem start_transport_failure_no_spawn (env : TransportEnv)
    (joinable : Bool) (nextId : Nat) (snaps : Nat → List Process)
    (fuel : Nat) (st : ServerState)
    (hfail : env.socketRes = none ∨ env.bindRes ≠ 0 ∨ env.listenRes ≠ 0) :
    ∃ evs, SCIServer.Start env joinable nextId snaps fuel st
        = some (false, { st with socket := none }, evs) ∧
      ({ st with socket := none } : ServerState).processList = st.processList ∧
      ∀ i, Event.spawn i ∉ evs := by
  unfold SCIServer.Start Connect
  rcases hfail with h | h | h
  · rw [h]
    exact ⟨_, rfl, rfl, fun i => by simp⟩
  · cases hsock : env.socketRes with
    | none => exact ⟨_, rfl, rfl, fun i => by simp⟩
    | some s =>
        refine ⟨[Event.logging "socket bind error.", Event.closeSocket s],
          ?_, rfl, fun i => by simp⟩
        simp [h]
  · cases hsock : env.socketRes with
    | none => exact ⟨_, rfl, rfl, fun i => by simp⟩
    | some s =>
        by_cases hbind : env.bindRes ≠ 0
        · refine ⟨[Event.logging "socket bind error.", Event.closeSocket s],
            ?_, rfl, fun i => by simp⟩
          simp [hbind]
        · refine ⟨[Event.logging "socket listen error.", Event.closeSocket s],
            ?_, rfl, fun i => by simp⟩
          simp [hbind, h]

/-- Witness for C7: bind fails (nonzero return), `Start` returns `false`
with no spawn even with fuel available. -/
theorem start_transport_failure_no_spawn_witness :
    ((⟨some 3, 1, 0⟩ : TransportEnv).socketRes = none ∨
      (⟨some 3, 1, 0⟩ : TransportEnv).bindRes ≠ 0 ∨
      (⟨some 3, 1, 0⟩ : TransportEnv).listenRes ≠ 0) ∧
    ∃ evs, SCIServer.Start ⟨some 3, 1, 0⟩ true 0 (fun _ => []) 5 ⟨none, [⟨7, 1000⟩]⟩
        = some (false, ⟨none, [⟨7, 1000⟩]⟩, evs) ∧
      ∀ i, Event.spawn i ∉ evs :=
  ⟨Or.inr (Or.inl (by decide)),
   by
     obtain ⟨evs, h1, _, h3⟩ :=
       start_transport_failure_no_spawn ⟨some 3, 1, 0⟩ true 0 (fun _ => []) 5
         ⟨none, [⟨7, 1000⟩]⟩ (Or.inr (Or.inl (by decide)))
     exact ⟨evs, h1, h3⟩⟩
